import Mathlib

/-!
Verification of the scene-randomization and safety-validation pipeline from
`ImageGenerator.py` (repository mbsa-tud/ImgGen).

The Python source works on Blender objects; here each relevant object is
embedded as a record carrying exactly the data the audited functions read:
its Blender `type` string, its raw mesh vertices (`obj.data.vertices`, local
coordinates), its depsgraph-evaluated mesh vertices (what
`get_evaluated_vertices_in_world_space` iterates over, local coordinates with
modifiers and pose applied), its local bounding-box corners (`obj.bound_box`)
and its world transform (`obj.matrix_world`, an affine 3x4 matrix acting on
points).  Python floats are modelled by `ℚ` for coordinates (every comparison
the code performs is then decidable) and by `ℝ`/`EReal` where the code takes
square roots and uses `float('inf')`.  A Python `None` result or an escaping
exception is modelled by `Option`/a dedicated error constructor.
-/

namespace ImgGen

/-- A 3D point, mirroring `mathutils.Vector` as used by the source. -/
structure Vec3 where
  x : ℚ
  y : ℚ
  z : ℚ
deriving DecidableEq

/-- An affine world matrix: the action of Blender's 4x4 `matrix_world` on
points (the last row of such a matrix is `0 0 0 1`). -/
structure Mat4 where
  m00 : ℚ
  m01 : ℚ
  m02 : ℚ
  m03 : ℚ
  m10 : ℚ
  m11 : ℚ
  m12 : ℚ
  m13 : ℚ
  m20 : ℚ
  m21 : ℚ
  m22 : ℚ
  m23 : ℚ
deriving DecidableEq

/-- `matrix_world @ v` for a point `v`. -/
def Mat4.apply (m : Mat4) (v : Vec3) : Vec3 :=
  ⟨m.m00 * v.x + m.m01 * v.y + m.m02 * v.z + m.m03,
   m.m10 * v.x + m.m11 * v.y + m.m12 * v.z + m.m13,
   m.m20 * v.x + m.m21 * v.y + m.m22 * v.z + m.m23⟩

/-- The identity world matrix (object at the origin, unscaled, unrotated). -/
def idMat : Mat4 := ⟨1, 0, 0, 0, 0, 1, 0, 0, 0, 0, 1, 0⟩

/-- A Blender object, restricted to the fields the audited functions read. -/
structure Obj where
  type : String
  vertices : List Vec3
  eval_vertices : List Vec3
  bound_box : List Vec3
  matrix_world : Mat4
deriving DecidableEq

/-- The scene's object table; `bpy.data.objects.get name` is name lookup. -/
abbrev Scene := List (String × Obj)

/-- `bpy.data.objects.get(name)`: the object registered under `name`, or
`none` when no such object exists. -/
def Scene.get (s : Scene) (name : String) : Option Obj :=
  (s.find? (fun p => p.1 == name)).map (fun p => p.2)

/-- `is_point_within_xy_area(point, min_x, max_x, min_y, max_y)`:
`min_x <= point.x <= max_x and min_y <= point.y <= max_y`. -/
def is_point_within_xy_area (point : Vec3) (min_x max_x min_y max_y : ℚ) : Bool :=
  min_x ≤ point.x && point.x ≤ max_x && min_y ≤ point.y && point.y ≤ max_y

/-- `get_world_bounding_box_xy(obj)`: maps every `bound_box` corner through
`matrix_world` and returns `(min_x, max_x, min_y, max_y)` over the mapped
corners.  Python's `min`/`max` over an empty sequence raises `ValueError`;
that exceptional case is `none` (Blender objects always carry 8 corners). -/
def get_world_bounding_box_xy (obj : Obj) : Option (ℚ × ℚ × ℚ × ℚ) :=
  let bbox_corners := obj.bound_box.map obj.matrix_world.apply
  match bbox_corners with
  | [] => none
  | c :: rest =>
      some (rest.foldl (fun m corner => min m corner.x) c.x,
            rest.foldl (fun m corner => max m corner.x) c.x,
            rest.foldl (fun m corner => min m corner.y) c.y,
            rest.foldl (fun m corner => max m corner.y) c.y)

/-- `collision_check_objects(obj1, obj2)`: if `obj1` exists and is a mesh,
computes `obj2`'s XY bounding area and reports whether some vertex of
`obj1.data.vertices`, mapped to world space, lies within it (the Python loop
returns on the first hit; `List.any` has the same value).  If `obj1` is
absent or not a mesh the function prints a message and returns `False`.
`none` models the `AttributeError`/`ValueError` that escapes when `obj2` is
`None` or has no bounding-box corners while `obj1` is a mesh. -/
def collision_check_objects (obj1 obj2 : Option Obj) : Option Bool :=
  match obj1 with
  | some o1 =>
      if o1.type = "MESH" then
        match obj2 with
        | none => none
        | some o2 =>
            match get_world_bounding_box_xy o2 with
            | none => none
            | some (area_min_x, area_max_x, area_min_y, area_max_y) =>
                some (o1.vertices.any fun vertex =>
                  is_point_within_xy_area (o1.matrix_world.apply vertex)
                    area_min_x area_max_x area_min_y area_max_y)
      else some false
  | none => some false

/-- The pair of collision checks run at the head of the resolver loop:
`check1 = collision_check_objects(workpiece, vest)` and
`check2 = collision_check_objects(workpiece, panda_leg)`;
`none` when either check raises. -/
def scene_checks (vest panda_leg : Option Obj) (w : Obj) : Option (Bool × Bool) :=
  match collision_check_objects (some w) vest, collision_check_objects (some w) panda_leg with
  | some check1, some check2 => some (check1, check2)
  | _, _ => none

/-- Outcome of running the resolver loop with a fuel bound: `err` when an
exception escapes, `spinning` when the fuel ran out with the loop still
iterating, `done w` when the `while` condition became false with the
workpiece in state `w` and the function returned. -/
inductive SceneCheckResult where
  | err : SceneCheckResult
  | spinning : SceneCheckResult
  | done : Obj → SceneCheckResult
deriving DecidableEq

/-- The `while check1 or check2` rejection loop of `collision_check_scene`.
`samples n` is the workpiece state produced by the `(n+1)`-th call to
`randomize_workpiece` (the randomness stream made explicit); `fuel` bounds
how many loop iterations are unfolded. -/
def collision_loop (vest panda_leg : Option Obj) :
    ℕ → (ℕ → Obj) → Obj → SceneCheckResult
  | 0, _, w =>
      match scene_checks vest panda_leg w with
      | none => SceneCheckResult.err
      | some (check1, check2) =>
          if check1 || check2 then SceneCheckResult.spinning
          else SceneCheckResult.done w
  | fuel + 1, samples, w =>
      match scene_checks vest panda_leg w with
      | none => SceneCheckResult.err
      | some (check1, check2) =>
          if check1 || check2 then
            collision_loop vest panda_leg fuel (fun n => samples (n + 1)) (samples 0)
          else SceneCheckResult.done w

/-- `collision_check_scene(workpiece, config)`: looks up the fixed obstacles
`'Ch17_Vest'` and `'Link-0'` and runs the rejection loop. -/
def collision_check_scene (workpiece : Obj) (samples : ℕ → Obj)
    (scene : Scene) (fuel : ℕ) : SceneCheckResult :=
  collision_loop (scene.get "Ch17_Vest") (scene.get "Link-0") fuel samples workpiece

/-- `randomize_workpiece` never failing to produce a placement that collides:
the workpiece state `w` makes both obstacle checks evaluate (no exception)
and at least one of them report a collision. -/
def scene_collides (vest panda_leg : Option Obj) (w : Obj) : Prop :=
  ∃ c1 c2 : Bool,
    collision_check_objects (some w) vest = some c1 ∧
    collision_check_objects (some w) panda_leg = some c2 ∧
    (c1 || c2) = true

/-- An axis-aligned box obstacle over `[-1,1]^2` in the XY plane, placed with
the identity world transform; used as the concrete vest/leg obstacle. -/
def obstacleBox : Obj :=
  { type := "MESH"
    vertices := []
    eval_vertices := []
    bound_box := [⟨-1, -1, 0⟩, ⟨1, -1, 0⟩, ⟨1, 1, 0⟩, ⟨-1, 1, 0⟩,
                  ⟨-1, -1, 1⟩, ⟨1, -1, 1⟩, ⟨1, 1, 1⟩, ⟨-1, 1, 1⟩]
    matrix_world := idMat }

/-- A one-vertex mesh workpiece far away from `obstacleBox`. -/
def wFar : Obj :=
  { type := "MESH"
    vertices := [⟨10, 10, 0⟩]
    eval_vertices := [⟨10, 10, 0⟩]
    bound_box := []
    matrix_world := idMat }

/-- A one-vertex mesh workpiece sitting at the origin, inside `obstacleBox`. -/
def wHit : Obj :=
  { type := "MESH"
    vertices := [⟨0, 0, 0⟩]
    eval_vertices := [⟨0, 0, 0⟩]
    bound_box := []
    matrix_world := idMat }

/-- A concrete scene carrying the two fixed obstacles of the resolver. -/
def demoObstacleScene : Scene :=
  [("Ch17_Vest", obstacleBox), ("Link-0", obstacleBox)]

/-- Mapping a point through the identity world matrix leaves it in place. -/
lemma idMat_apply (v : Vec3) : idMat.apply v = v := by
  cases v
  simp [Mat4.apply, idMat]

/-- The world bounding area of `obstacleBox` is the square `[-1,1]^2`. -/
lemma obstacleBox_bbox : get_world_bounding_box_xy obstacleBox = some (-1, 1, -1, 1) := by
  simp [get_world_bounding_box_xy, obstacleBox, idMat_apply, min_def, max_def]
  norm_num

/-- The far workpiece does not collide with the obstacle box. -/
lemma cco_wFar_box : collision_check_objects (some wFar) (some obstacleBox) = some false := by
  simp +decide [collision_check_objects, wFar, obstacleBox_bbox, is_point_within_xy_area,
    idMat_apply]

/-- The origin workpiece collides with the obstacle box. -/
lemma cco_wHit_box : collision_check_objects (some wHit) (some obstacleBox) = some true := by
  simp +decide [collision_check_objects, wHit, obstacleBox_bbox, is_point_within_xy_area,
    idMat_apply]

/-- Scene lookup of the vest obstacle in the demo scene. -/
lemma demo_get_vest : demoObstacleScene.get "Ch17_Vest" = some obstacleBox := rfl

/-- Scene lookup of the leg obstacle in the demo scene. -/
lemma demo_get_leg : demoObstacleScene.get "Link-0" = some obstacleBox := rfl

/-- Unpacking a successful pair of resolver-loop collision checks. -/
lemma scene_checks_some {vest panda_leg : Option Obj} {w : Obj} {c1 c2 : Bool}
    (h : scene_checks vest panda_leg w = some (c1, c2)) :
    collision_check_objects (some w) vest = some c1 ∧
    collision_check_objects (some w) panda_leg = some c2 := by
  unfold scene_checks at h
  rcases h1 : collision_check_objects (some w) vest with _ | b1 <;>
    rcases h2 : collision_check_objects (some w) panda_leg with _ | b2 <;>
      rw [h1, h2] at h <;> simp_all

/-- Unfolding the resolver loop at fuel `0` when both checks evaluate. -/
lemma collision_loop_zero (vest panda_leg : Option Obj) (samples : ℕ → Obj) (w : Obj)
    {c1 c2 : Bool} (hsc : scene_checks vest panda_leg w = some (c1, c2)) :
    collision_loop vest panda_leg 0 samples w =
      if (c1 || c2) = true then SceneCheckResult.spinning else SceneCheckResult.done w := by
  unfold collision_loop
  rw [hsc]

/-- Unfolding the resolver loop at positive fuel when both checks evaluate. -/
lemma collision_loop_succ (vest panda_leg : Option Obj) (fuel : ℕ) (samples : ℕ → Obj)
    (w : Obj) {c1 c2 : Bool} (hsc : scene_checks vest panda_leg w = some (c1, c2)) :
    collision_loop vest panda_leg (fuel + 1) samples w =
      if (c1 || c2) = true then
        collision_loop vest panda_leg fuel (fun n => samples (n + 1)) (samples 0)
      else SceneCheckResult.done w := by
  conv_lhs => unfold collision_loop
  rw [hsc]

/-- Unfolding the resolver loop when a collision check raises. -/
lemma collision_loop_raise (vest panda_leg : Option Obj) (fuel : ℕ) (samples : ℕ → Obj)
    (w : Obj) (hsc : scene_checks vest panda_leg w = none) :
    collision_loop vest panda_leg fuel samples w = SceneCheckResult.err := by
  cases fuel <;> (unfold collision_loop; rw [hsc])

/-- The resolver loop only returns `done` in a state where both obstacle
checks are `False`. -/
lemma collision_loop_done_states (vest panda_leg : Option Obj) (fuel : ℕ) :
    ∀ (samples : ℕ → Obj) (w wfinal : Obj),
      collision_loop vest panda_leg fuel samples w = SceneCheckResult.done wfinal →
      collision_check_objects (some wfinal) vest = some false ∧
      collision_check_objects (some wfinal) panda_leg = some false := by
  induction fuel with
  | zero =>
      intro samples w wfinal h
      rcases hsc : scene_checks vest panda_leg w with _ | ⟨c1, c2⟩
      · rw [collision_loop_raise vest panda_leg 0 samples w hsc] at h
        exact absurd h (by simp)
      · rw [collision_loop_zero vest panda_leg samples w hsc] at h
        by_cases hb : (c1 || c2) = true
        · rw [if_pos hb] at h
          exact absurd h (by simp)
        · rw [if_neg hb] at h
          have hw : w = wfinal := by
            simpa using h
          simp only [Bool.or_eq_true, not_or, Bool.not_eq_true] at hb
          obtain ⟨hv, hl⟩ := scene_checks_some hsc
          rw [hw] at hv hl
          rw [hb.1] at hv
          rw [hb.2] at hl
          exact ⟨hv, hl⟩
  | succ fuel ih =>
      intro samples w wfinal h
      rcases hsc : scene_checks vest panda_leg w with _ | ⟨c1, c2⟩
      · rw [collision_loop_raise vest panda_leg (fuel + 1) samples w hsc] at h
        exact absurd h (by simp)
      · rw [collision_loop_succ vest panda_leg fuel samples w hsc] at h
        by_cases hb : (c1 || c2) = true
        · rw [if_pos hb] at h
          exact ih (fun n => samples (n + 1)) (samples 0) wfinal h
        · rw [if_neg hb] at h
          have hw : w = wfinal := by
            simpa using h
          simp only [Bool.or_eq_true, not_or, Bool.not_eq_true] at hb
          obtain ⟨hv, hl⟩ := scene_checks_some hsc
          rw [hw] at hv hl
          rw [hb.1] at hv
          rw [hb.2] at hl
          exact ⟨hv, hl⟩

/-- Claim C1: whenever `collision_check_scene` returns, the workpiece's final
state is collision-free: `collision_check_objects` evaluates to `False`
against both fixed obstacles (`'Ch17_Vest'` and `'Link-0'`), for every
initial workpiece state, every resample stream and every fuel bound under
which the loop terminates. -/
theorem C1_resolver_returns_collision_free (workpiece : Obj) (samples : ℕ → Obj)
    (scene : Scene) (fuel : ℕ) (wfinal : Obj)
    (h : collision_check_scene workpiece samples scene fuel = SceneCheckResult.done wfinal) :
    collision_check_objects (some wfinal) (scene.get "Ch17_Vest") = some false ∧
    collision_check_objects (some wfinal) (scene.get "Link-0") = some false :=
  collision_loop_done_states (scene.get "Ch17_Vest") (scene.get "Link-0")
    fuel samples workpiece wfinal h

/-- Claim C1, witness: a workpiece placed away from both obstacles resolves
immediately and the theorem applies to it. -/
theorem C1_resolver_returns_collision_free_witness :
    collision_check_scene wFar (fun _ => wFar) demoObstacleScene 0 =
        SceneCheckResult.done wFar ∧
      (collision_check_objects (some wFar) (demoObstacleScene.get "Ch17_Vest") = some false ∧
       collision_check_objects (some wFar) (demoObstacleScene.get "Link-0") = some false) := by
  have hsc : scene_checks (some obstacleBox) (some obstacleBox) wFar = some (false, false) := by
    simp [scene_checks, cco_wFar_box]
  have hrun : collision_check_scene wFar (fun _ => wFar) demoObstacleScene 0 =
      SceneCheckResult.done wFar := by
    unfold collision_check_scene
    rw [demo_get_vest, demo_get_leg,
      collision_loop_zero (some obstacleBox) (some obstacleBox) (fun _ => wFar) wFar hsc]
    simp
  exact ⟨hrun,
    C1_resolver_returns_collision_free wFar (fun _ => wFar) demoObstacleScene 0 wFar hrun⟩

/-- If the current state and every resampled state collide, the resolver loop
exhausts any amount of fuel without returning. -/
lemma collision_loop_spins (vest panda_leg : Option Obj) (fuel : ℕ) :
    ∀ (samples : ℕ → Obj) (w : Obj),
      scene_collides vest panda_leg w →
      (∀ n, scene_collides vest panda_leg (samples n)) →
      collision_loop vest panda_leg fuel samples w = SceneCheckResult.spinning := by
  induction fuel with
  | zero =>
      intro samples w hw _
      obtain ⟨c1, c2, h1, h2, hor⟩ := hw
      have hsc : scene_checks vest panda_leg w = some (c1, c2) := by
        unfold scene_checks
        rw [h1, h2]
      rw [collision_loop_zero vest panda_leg samples w hsc, if_pos hor]
  | succ fuel ih =>
      intro samples w hw hs
      obtain ⟨c1, c2, h1, h2, hor⟩ := hw
      have hsc : scene_checks vest panda_leg w = some (c1, c2) := by
        unfold scene_checks
        rw [h1, h2]
      rw [collision_loop_succ vest panda_leg fuel samples w hsc, if_pos hor]
      exact ih (fun n => samples (n + 1)) (samples 0) (hs 0) (fun n => hs (n + 1))

/-- Claim C2: the rejection loop of `collision_check_scene` has no iteration
bound: if the initial workpiece state collides and every resampled state
collides with at least one of the two obstacles, the loop never reaches the
`done` state — it is still spinning after any number of iterations. -/
theorem C2_resolver_never_terminates (workpiece : Obj) (samples : ℕ → Obj) (scene : Scene)
    (hw : scene_collides (scene.get "Ch17_Vest") (scene.get "Link-0") workpiece)
    (hs : ∀ n, scene_collides (scene.get "Ch17_Vest") (scene.get "Link-0") (samples n)) :
    ∀ fuel, collision_check_scene workpiece samples scene fuel = SceneCheckResult.spinning :=
  fun fuel =>
    collision_loop_spins (scene.get "Ch17_Vest") (scene.get "Link-0") fuel samples workpiece hw hs

/-- Claim C2, witness: a workpiece pinned inside the obstacle box, with every
resample returning it there, spins forever (checked at fuel 5). -/
theorem C2_resolver_never_terminates_witness :
    scene_collides (demoObstacleScene.get "Ch17_Vest") (demoObstacleScene.get "Link-0") wHit ∧
    collision_check_scene wHit (fun _ => wHit) demoObstacleScene 5 =
      SceneCheckResult.spinning := by
  have hcol : scene_collides (demoObstacleScene.get "Ch17_Vest")
      (demoObstacleScene.get "Link-0") wHit := by
    rw [demo_get_vest, demo_get_leg]
    exact ⟨true, true, cco_wHit_box, cco_wHit_box, rfl⟩
  exact ⟨hcol,
    C2_resolver_never_terminates wHit (fun _ => wHit) demoObstacleScene hcol (fun _ => hcol) 5⟩

/-- Claim C6: `collision_check_objects` on an absent or non-mesh probe is
`False` (not applicable) regardless of the obstacle; on a mesh probe it is
`True` exactly when some vertex of the probe's mesh, mapped to world space,
lies within the obstacle's XY bounding area. -/
theorem C6_collision_check_objects_spec :
    (∀ obj2 : Option Obj, collision_check_objects none obj2 = some false)
  ∧ (∀ (o1 : Obj) (obj2 : Option Obj), ¬ o1.type = "MESH" →
      collision_check_objects (some o1) obj2 = some false)
  ∧ (∀ (o1 o2 : Obj) (a b c d : ℚ), o1.type = "MESH" →
      get_world_bounding_box_xy o2 = some (a, b, c, d) →
      (collision_check_objects (some o1) (some o2) = some true ↔
        ∃ v ∈ o1.vertices,
          is_point_within_xy_area (o1.matrix_world.apply v) a b c d = true)) := by
  refine ⟨fun obj2 => rfl, fun o1 obj2 h => ?_, fun o1 o2 a b c d h1 h2 => ?_⟩
  · simp [collision_check_objects, h]
  · simp [collision_check_objects, h1, h2, List.any_eq_true]

/-- Claim C6, witness: the origin vertex of `wHit` lies inside
`obstacleBox`'s `[-1,1]^2` bounding area, so the check reports a collision. -/
theorem C6_collision_check_objects_spec_witness :
    collision_check_objects (some wHit) (some obstacleBox) = some true :=
  (C6_collision_check_objects_spec.2.2 wHit obstacleBox (-1) 1 (-1) 1 rfl
      obstacleBox_bbox).mpr
    ⟨⟨0, 0, 0⟩, by simp [wHit],
     by simp +decide [is_point_within_xy_area, wHit, idMat_apply]⟩

/-- Claim C7: `is_point_within_xy_area` treats the area as a closed
rectangle: it returns `true` exactly when `min_x ≤ point.x ≤ max_x` and
`min_y ≤ point.y ≤ max_y`, so a point lying exactly on a boundary is
classified inside. -/
theorem C7_point_in_area_closed_rectangle (point : Vec3) (min_x max_x min_y max_y : ℚ) :
    is_point_within_xy_area point min_x max_x min_y max_y = true ↔
      (min_x ≤ point.x ∧ point.x ≤ max_x ∧ min_y ≤ point.y ∧ point.y ≤ max_y) := by
  simp [is_point_within_xy_area, and_assoc]

/-- `get_evaluated_vertices_in_world_space(obj)`: the depsgraph-evaluated
mesh vertices (pose and modifiers applied) mapped to world space. -/
def world_vertices (obj : Obj) : List Vec3 :=
  obj.eval_vertices.map obj.matrix_world.apply

/-- `get_evaluated_vertices_in_world_space(obj)`: returns `None` when the
object is not a mesh, otherwise the evaluated world-space vertex list. -/
def get_evaluated_vertices_in_world_space (obj : Obj) : Option (List Vec3) :=
  if obj.type = "MESH" then some (world_vertices obj) else none

/-- `(v1 - v2).length`: the Euclidean distance between two points. -/
noncomputable def dist3 (v1 v2 : Vec3) : ℝ :=
  Real.sqrt (((v1.x : ℝ) - (v2.x : ℝ)) ^ 2 + ((v1.y : ℝ) - (v2.y : ℝ)) ^ 2 +
    ((v1.z : ℝ) - (v2.z : ℝ)) ^ 2)

/-- The accumulation loop of `find_closest_distance_between_objects`:
`min_distance = float('inf')`, then for every vertex pair the distance
replaces the accumulator when strictly smaller.  `float('inf')` is `⊤` in
`EReal`, every actual distance a real coerced into `EReal`. -/
noncomputable def min_distance_fold (vs1 vs2 : List Vec3) : EReal :=
  vs1.foldl
    (fun acc v1 =>
      vs2.foldl
        (fun acc2 v2 =>
          if ((dist3 v1 v2 : ℝ) : EReal) < acc2 then ((dist3 v1 v2 : ℝ) : EReal) else acc2)
        acc)
    ⊤

/-- `find_closest_distance_between_objects(obj1, obj2)`: `None` when either
object is absent or not a mesh, otherwise the minimum-distance accumulation
over the two evaluated world-space vertex lists. -/
noncomputable def find_closest_distance_between_objects (obj1 obj2 : Option Obj) :
    Option EReal :=
  match obj1, obj2 with
  | some o1, some o2 =>
      if o1.type = "MESH" ∧ o2.type = "MESH" then
        match get_evaluated_vertices_in_world_space o1,
            get_evaluated_vertices_in_world_space o2 with
        | some vs1, some vs2 => some (min_distance_fold vs1 vs2)
        | _, _ => none
      else none
  | _, _ => none

/-- `safety_check(config)`: looks up `'Hand'` and `'Gloves'`, computes their
minimum distance and compares it with the configured
`SafetyZone.Distance` threshold; `violation = 1` when strictly below.
Comparing Python's `None` against the float threshold raises `TypeError`,
modelled by the `none` result. -/
noncomputable def safety_check (scene : Scene) (threshold : ℚ) : Option (ℕ × EReal) :=
  match find_closest_distance_between_objects (scene.get "Hand") (scene.get "Gloves") with
  | none => none
  | some min_distance =>
      if min_distance < ((threshold : ℝ) : EReal) then some (1, min_distance)
      else some (0, min_distance)

/-- The body of the accumulation loop is the binary `min` of the mapped
values. -/
lemma foldl_reject_min_map {α β : Type} [LinearOrder β] (g : α → β) (l : List α) :
    ∀ init : β,
      l.foldl (fun acc x => if g x < acc then g x else acc) init =
        (l.map g).foldl min init := by
  induction l with
  | nil => exact fun init => rfl
  | cons a l ih =>
      intro init
      rw [List.foldl_cons, List.map_cons, List.foldl_cons]
      rw [show (if g a < init then g a else init) = min init (g a) by
        by_cases h : g a < init
        · rw [if_pos h, min_eq_right h.le]
        · rw [if_neg h, min_eq_left (le_of_not_lt h)]]
      exact ih (min init (g a))

/-- A `min`-fold is bounded by its initial accumulator. -/
lemma foldl_min_le_init {α : Type} [LinearOrder α] (l : List α) (init : α) :
    l.foldl min init ≤ init := by
  induction l generalizing init with
  | nil => exact le_refl init
  | cons a l ih => exact le_trans (ih (min init a)) (min_le_left init a)

/-- A `min`-fold is bounded by every list element. -/
lemma foldl_min_le_mem {α : Type} [LinearOrder α] {l : List α} {x : α} (hx : x ∈ l) :
    ∀ init : α, l.foldl min init ≤ x := by
  induction l with
  | nil => cases hx
  | cons a l ih =>
      intro init
      rcases List.mem_cons.mp hx with h | h
      · subst h
        exact le_trans (foldl_min_le_init l (min init x)) (min_le_right init x)
      · exact ih h (min init a)

/-- A `min`-fold returns either the initial accumulator or a list element. -/
lemma foldl_min_eq_init_or_mem {α : Type} [LinearOrder α] (l : List α) :
    ∀ init : α, l.foldl min init = init ∨ l.foldl min init ∈ l := by
  induction l with
  | nil => exact fun init => Or.inl rfl
  | cons a l ih =>
      intro init
      rcases ih (min init a) with h | h
      · rw [List.foldl_cons]
        rcases le_or_lt init a with hle | hlt
        · exact Or.inl (by rw [h, min_eq_left hle])
        · exact Or.inr (by rw [h, min_eq_right hlt.le]; exact List.mem_cons_self a l)
      · rw [List.foldl_cons]
        exact Or.inr (List.mem_cons_of_mem a h)

/-- The nested rejection fold over two lists equals a `min`-fold over the
flattened list of all pairwise values. -/
lemma nested_reject_min_foldl {α β : Type} [LinearOrder β] (f : α → α → β)
    (vs2 : List α) (vs1 : List α) :
    ∀ init : β,
      vs1.foldl
          (fun acc v1 =>
            vs2.foldl (fun acc2 v2 => if f v1 v2 < acc2 then f v1 v2 else acc2) acc)
          init =
        (vs1.flatMap fun v1 => vs2.map (f v1)).foldl min init := by
  induction vs1 with
  | nil => intro init; rfl
  | cons a l ih =>
      intro init
      rw [List.foldl_cons, ih, List.flatMap_cons, List.foldl_append,
        foldl_reject_min_map (f a) vs2]

/-- The minimum-distance accumulator, as a flat `min`-fold in `EReal`. -/
lemma min_distance_fold_eq_flat (vs1 vs2 : List Vec3) :
    min_distance_fold vs1 vs2 =
      (vs1.flatMap fun v1 => vs2.map (fun v2 => ((dist3 v1 v2 : ℝ) : EReal))).foldl min ⊤ :=
  nested_reject_min_foldl (fun v1 v2 => ((dist3 v1 v2 : ℝ) : EReal)) vs2 vs1 ⊤

/-- On two nonempty vertex lists the accumulator returns the distance of some
pair and bounds the distance of every pair. -/
lemma min_distance_fold_spec (vs1 vs2 : List Vec3) (h1 : vs1 ≠ []) (h2 : vs2 ≠ []) :
    ∃ d : ℝ, min_distance_fold vs1 vs2 = ((d : ℝ) : EReal) ∧
      (∃ v1 ∈ vs1, ∃ v2 ∈ vs2, d = dist3 v1 v2) ∧
      (∀ v1 ∈ vs1, ∀ v2 ∈ vs2, d ≤ dist3 v1 v2) := by
  obtain ⟨a, ha⟩ := List.exists_mem_of_ne_nil vs1 h1
  obtain ⟨b, hb⟩ := List.exists_mem_of_ne_nil vs2 h2
  have hab : ((dist3 a b : ℝ) : EReal) ∈
      vs1.flatMap fun v1 => vs2.map (fun v2 => ((dist3 v1 v2 : ℝ) : EReal)) :=
    List.mem_flatMap.mpr ⟨a, ha, List.mem_map.mpr ⟨b, hb, rfl⟩⟩
  rw [min_distance_fold_eq_flat]
  rcases foldl_min_eq_init_or_mem
      (vs1.flatMap fun v1 => vs2.map (fun v2 => ((dist3 v1 v2 : ℝ) : EReal))) ⊤ with htop | hmem
  · exfalso
    have hle := foldl_min_le_mem hab (⊤ : EReal)
    rw [htop] at hle
    exact absurd hle (not_le.mpr (EReal.coe_lt_top (dist3 a b)))
  · obtain ⟨v1, hv1, hmap⟩ := List.mem_flatMap.mp hmem
    obtain ⟨v2, hv2, hval⟩ := List.mem_map.mp hmap
    refine ⟨dist3 v1 v2, hval.symm, ⟨v1, hv1, v2, hv2, rfl⟩, ?_⟩
    intro u1 hu1 u2 hu2
    have hmem2 : ((dist3 u1 u2 : ℝ) : EReal) ∈
        vs1.flatMap fun w1 => vs2.map (fun w2 => ((dist3 w1 w2 : ℝ) : EReal)) :=
      List.mem_flatMap.mpr ⟨u1, hu1, List.mem_map.mpr ⟨u2, hu2, rfl⟩⟩
    have hle := foldl_min_le_mem hmem2 (⊤ : EReal)
    rw [← hval] at hle
    exact EReal.coe_le_coe_iff.mp hle

/-- With both objects mesh-typed, `find_closest_distance_between_objects`
evaluates the accumulation over the two evaluated world vertex lists. -/
lemma find_closest_eq_of_mesh {o1 o2 : Obj} (h1 : o1.type = "MESH") (h2 : o2.type = "MESH") :
    find_closest_distance_between_objects (some o1) (some o2) =
      some (min_distance_fold (world_vertices o1) (world_vertices o2)) := by
  have hg1 : get_evaluated_vertices_in_world_space o1 = some (world_vertices o1) := by
    unfold get_evaluated_vertices_in_world_space
    rw [if_pos h1]
  have hg2 : get_evaluated_vertices_in_world_space o2 = some (world_vertices o2) := by
    unfold get_evaluated_vertices_in_world_space
    rw [if_pos h2]
  unfold find_closest_distance_between_objects
  dsimp only
  rw [if_pos ⟨h1, h2⟩, hg1, hg2]

/-- The accumulator over two singleton lists is the distance of the only
pair. -/
lemma min_distance_fold_single (a b : Vec3) :
    min_distance_fold [a] [b] = ((dist3 a b : ℝ) : EReal) := by
  simp [min_distance_fold, EReal.coe_lt_top]

/-- An empty first vertex list leaves the accumulator at `float('inf')`. -/
lemma min_distance_fold_nil_left (vs : List Vec3) : min_distance_fold [] vs = ⊤ := rfl

/-- A fold whose body ignores the element returns its initial accumulator. -/
lemma foldl_const_acc {α β : Type} (l : List α) (f : β → α → β) (hf : ∀ b a, f b a = b) :
    ∀ init : β, l.foldl f init = init := by
  induction l with
  | nil => exact fun init => rfl
  | cons a l ih =>
      intro init
      rw [List.foldl_cons, hf]
      exact ih init

/-- An empty second vertex list leaves the accumulator at `float('inf')`. -/
lemma min_distance_fold_nil_right (vs : List Vec3) : min_distance_fold vs [] = ⊤ :=
  foldl_const_acc vs _ (fun _ _ => rfl) ⊤

/-- The distance between `(0,0,0)` and `(3,4,0)` is `5`. -/
lemma dist3_345 : dist3 ⟨0, 0, 0⟩ ⟨3, 4, 0⟩ = 5 := by
  have h : dist3 ⟨0, 0, 0⟩ ⟨3, 4, 0⟩ = Real.sqrt 25 := by
    unfold dist3
    norm_num
  rw [h, show (25 : ℝ) = 5 ^ 2 by norm_num, Real.sqrt_sq (by norm_num : (0:ℝ) ≤ 5)]

/-- Claim C3: when `safety_check` produces a result, `violation = 1` exactly
when the computed minimum distance is strictly below the configured
threshold; at exact equality the result is `violation = 0`. -/
theorem C3_violation_iff_strictly_below (scene : Scene) (threshold : ℚ) (violation : ℕ)
    (min_distance : EReal)
    (h : safety_check scene threshold = some (violation, min_distance)) :
    (violation = 1 ↔ min_distance < ((threshold : ℝ) : EReal)) ∧
    (min_distance = ((threshold : ℝ) : EReal) → violation = 0) := by
  unfold safety_check at h
  rcases hf : find_closest_distance_between_objects (scene.get "Hand") (scene.get "Gloves")
    with _ | d
  · rw [hf] at h
    cases h
  · rw [hf] at h
    dsimp only at h
    by_cases hlt : d < ((threshold : ℝ) : EReal)
    · rw [if_pos hlt] at h
      simp only [Option.some.injEq, Prod.mk.injEq] at h
      obtain ⟨hv, hd⟩ := h
      subst hv
      subst hd
      refine ⟨by simp [hlt], fun he => absurd hlt ?_⟩
      rw [he]
      exact lt_irrefl _
    · rw [if_neg hlt] at h
      simp only [Option.some.injEq, Prod.mk.injEq] at h
      obtain ⟨hv, hd⟩ := h
      subst hv
      subst hd
      exact ⟨by simp [hlt], fun _ => rfl⟩

/-- A one-vertex hand mesh at the origin. -/
def handObj : Obj :=
  { type := "MESH"
    vertices := [⟨0, 0, 0⟩]
    eval_vertices := [⟨0, 0, 0⟩]
    bound_box := []
    matrix_world := idMat }

/-- A one-vertex gloves mesh at `(3,4,0)`. -/
def glovesObj : Obj :=
  { type := "MESH"
    vertices := [⟨3, 4, 0⟩]
    eval_vertices := [⟨3, 4, 0⟩]
    bound_box := []
    matrix_world := idMat }

/-- A scene carrying the hand and gloves proxies. -/
def demoSafetyScene : Scene := [("Hand", handObj), ("Gloves", glovesObj)]

/-- World vertices of the demo hand. -/
lemma hand_world : world_vertices handObj = [⟨0, 0, 0⟩] := by
  simp [world_vertices, handObj, idMat_apply]

/-- World vertices of the demo gloves. -/
lemma gloves_world : world_vertices glovesObj = [⟨3, 4, 0⟩] := by
  simp [world_vertices, glovesObj, idMat_apply]

/-- `safety_check` on the demo scene at threshold `5`: the minimum distance
equals the threshold exactly and no violation is reported. -/
lemma demo_safety_eval : safety_check demoSafetyScene 5 = some (0, ((5 : ℝ) : EReal)) := by
  have hc : (((5 : ℚ) : ℝ) : EReal) = ((5 : ℝ) : EReal) := by norm_cast
  have hf : find_closest_distance_between_objects (demoSafetyScene.get "Hand")
      (demoSafetyScene.get "Gloves") = some ((5 : ℝ) : EReal) := by
    rw [show demoSafetyScene.get "Hand" = some handObj from rfl,
      show demoSafetyScene.get "Gloves" = some glovesObj from rfl,
      find_closest_eq_of_mesh rfl rfl, hand_world, gloves_world,
      min_distance_fold_single, dist3_345]
  unfold safety_check
  rw [hf]
  dsimp only
  rw [hc, if_neg (lt_irrefl ((5 : ℝ) : EReal))]

/-- Claim C3, witness: the demo scene at threshold `5` sits exactly on the
boundary and the theorem classifies it as no violation. -/
theorem C3_violation_iff_strictly_below_witness :
    safety_check demoSafetyScene 5 = some (0, ((5 : ℝ) : EReal)) ∧
    (((0 : ℕ) = 1 ↔ ((5 : ℝ) : EReal) < (((5 : ℚ) : ℝ) : EReal)) ∧
      (((5 : ℝ) : EReal) = (((5 : ℚ) : ℝ) : EReal) → (0 : ℕ) = 0)) :=
  ⟨demo_safety_eval,
   C3_violation_iff_strictly_below demoSafetyScene 5 0 ((5 : ℝ) : EReal) demo_safety_eval⟩

/-- Claim C4: on two mesh objects with nonempty evaluated world vertex lists,
`find_closest_distance_between_objects` returns exactly the minimum pairwise
Euclidean distance over the full cross product; for singleton meshes at
`(0,0,0)` and `(3,4,0)` it returns `5.0`. -/
theorem C4_min_cross_distance :
    (∀ (o1 o2 : Obj), o1.type = "MESH" → o2.type = "MESH" →
        world_vertices o1 ≠ [] → world_vertices o2 ≠ [] →
        ∃ d : ℝ,
          find_closest_distance_between_objects (some o1) (some o2) = some ((d : ℝ) : EReal) ∧
          (∃ v1 ∈ world_vertices o1, ∃ v2 ∈ world_vertices o2, d = dist3 v1 v2) ∧
          (∀ v1 ∈ world_vertices o1, ∀ v2 ∈ world_vertices o2, d ≤ dist3 v1 v2))
  ∧ (∀ (o1 o2 : Obj), o1.type = "MESH" → o2.type = "MESH" →
        world_vertices o1 = [⟨0, 0, 0⟩] → world_vertices o2 = [⟨3, 4, 0⟩] →
        find_closest_distance_between_objects (some o1) (some o2) =
          some ((5 : ℝ) : EReal)) := by
  constructor
  · intro o1 o2 h1 h2 hn1 hn2
    rw [find_closest_eq_of_mesh h1 h2]
    obtain ⟨d, hd, hmem, hmin⟩ := min_distance_fold_spec _ _ hn1 hn2
    exact ⟨d, by rw [hd], hmem, hmin⟩
  · intro o1 o2 h1 h2 hv1 hv2
    rw [find_closest_eq_of_mesh h1 h2, hv1, hv2, min_distance_fold_single, dist3_345]

/-- Claim C4, witness: the singleton hand/gloves meshes at `(0,0,0)` and
`(3,4,0)` yield exactly `5.0`. -/
theorem C4_min_cross_distance_witness :
    world_vertices handObj = [⟨0, 0, 0⟩] ∧ world_vertices glovesObj = [⟨3, 4, 0⟩] ∧
    find_closest_distance_between_objects (some handObj) (some glovesObj) =
      some ((5 : ℝ) : EReal) :=
  ⟨hand_world, gloves_world,
   C4_min_cross_distance.2 handObj glovesObj rfl rfl hand_world gloves_world⟩

/-- The entity registered under a name is missing from the scene or not
mesh-typed. -/
def absent_or_non_mesh (x : Option Obj) : Prop :=
  ∀ o : Obj, x = some o → ¬ o.type = "MESH"

/-- Claim C5: when `'Hand'` or `'Gloves'` is absent or non-mesh, the distance
computation returns the undefined value (`None`) and `safety_check`'s
comparison of it against the threshold fails instead of producing a defined
result. -/
theorem C5_missing_entity_propagates (scene : Scene) (threshold : ℚ)
    (h : absent_or_non_mesh (scene.get "Hand") ∨ absent_or_non_mesh (scene.get "Gloves")) :
    find_closest_distance_between_objects (scene.get "Hand") (scene.get "Gloves") = none ∧
    safety_check scene threshold = none := by
  have hf : find_closest_distance_between_objects (scene.get "Hand")
      (scene.get "Gloves") = none := by
    rcases hH : scene.get "Hand" with _ | o1 <;>
      rcases hG : scene.get "Gloves" with _ | o2
    · rfl
    · rfl
    · rfl
    · rw [hH, hG] at h
      unfold find_closest_distance_between_objects
      dsimp only
      have hnm : ¬ (o1.type = "MESH" ∧ o2.type = "MESH") := by
        rcases h with h | h
        · exact fun hc => h o1 rfl hc.1
        · exact fun hc => h o2 rfl hc.2
      rw [if_neg hnm]
  refine ⟨hf, ?_⟩
  unfold safety_check
  rw [hf]

/-- Claim C5, witness: the empty scene has neither entity; both the distance
and the safety check degrade to the undefined result. -/
theorem C5_missing_entity_propagates_witness :
    absent_or_non_mesh (Scene.get [] "Hand") ∧
    (find_closest_distance_between_objects (Scene.get [] "Hand")
        (Scene.get [] "Gloves") = none ∧
      safety_check [] 1 = none) := by
  have habs : absent_or_non_mesh (Scene.get [] "Hand") := by
    intro o ho
    simp [Scene.get] at ho
  exact ⟨habs, C5_missing_entity_propagates [] 1 (Or.inl habs)⟩

/-- Claim C9: with both objects mesh-typed but one evaluated world vertex set
empty, the distance is the defined sentinel `float('inf')` (no exception),
and `safety_check` reports `violation = 0`. -/
theorem C9_empty_vertices_sentinel (scene : Scene) (threshold : ℚ) (hand gloves : Obj)
    (hH : scene.get "Hand" = some hand) (hG : scene.get "Gloves" = some gloves)
    (h1 : hand.type = "MESH") (h2 : gloves.type = "MESH")
    (he : world_vertices hand = [] ∨ world_vertices gloves = []) :
    find_closest_distance_between_objects (some hand) (some gloves) = some ⊤ ∧
    safety_check scene threshold = some (0, ⊤) := by
  have hf : find_closest_distance_between_objects (some hand) (some gloves) = some ⊤ := by
    rw [find_closest_eq_of_mesh h1 h2]
    rcases he with he | he <;> rw [he]
    · rw [min_distance_fold_nil_left]
    · rw [min_distance_fold_nil_right]
  refine ⟨hf, ?_⟩
  unfold safety_check
  rw [hH, hG, hf]
  dsimp only
  rw [if_neg (not_top_lt)]

/-- A mesh hand whose evaluated vertex list is empty. -/
def emptyHand : Obj :=
  { type := "MESH"
    vertices := []
    eval_vertices := []
    bound_box := []
    matrix_world := idMat }

/-- A scene pairing the empty hand with the demo gloves. -/
def demoEmptyScene : Scene := [("Hand", emptyHand), ("Gloves", glovesObj)]

/-- Claim C9, witness: the empty hand against the demo gloves returns the
`float('inf')` sentinel and no violation at threshold `1`. -/
theorem C9_empty_vertices_sentinel_witness :
    world_vertices emptyHand = [] ∧
    (find_closest_distance_between_objects (some emptyHand) (some glovesObj) = some ⊤ ∧
      safety_check demoEmptyScene 1 = some (0, ⊤)) :=
  ⟨rfl,
   C9_empty_vertices_sentinel demoEmptyScene 1 emptyHand glovesObj rfl rfl rfl rfl
     (Or.inl rfl)⟩

/-- Python's `str.split(sep)` for a single-character separator, acting on the
character list of the string. -/
def splitOnChar (sep : Char) : List Char → List (List Char)
  | [] => [[]]
  | a :: rest =>
      match splitOnChar sep rest with
      | [] => [[]]
      | h :: t => if a = sep then [] :: h :: t else (a :: h) :: t

/-- The numeric value of a decimal digit character, `none` otherwise. -/
def char_digit (c : Char) : Option ℕ :=
  if '0' ≤ c ∧ c ≤ '9' then some (c.toNat - '0'.toNat) else none

/-- Python's `int(s)` on a plain digit string (`ValueError` is `none`; signs,
whitespace and underscore separators never occur in the generated names). -/
def str_to_int (l : List Char) : Option ℕ :=
  if l = [] then none
  else l.foldl (fun acc c =>
    match acc, char_digit c with
    | some n, some d => some (n * 10 + d)
    | _, _ => none) (some 0)

/-- `int(last_row[0].split('_')[1].split('.')[0])`: extracts the image index
embedded in a logged image name; `none` models the `IndexError`/`ValueError`
escaping on a malformed name. -/
def parse_image_index (name : String) : Option ℕ :=
  match (splitOnChar '_' name.data)[1]? with
  | none => none
  | some part =>
      match (splitOnChar '.' part).head? with
      | none => none
      | some digits => str_to_int digits

/-- `f"{i:06d}"`: decimal digits left-padded with zeros to width six. -/
def pad6 (i : ℕ) : String :=
  let s := toString i
  String.mk (List.replicate (6 - s.length) '0') ++ s

/-- The header row written into a fresh CSV log. -/
def csv_header : List String := ["ImageName", "Violation", "Distance"]

/-- The index-continuation logic at the head of `log_to_csv`: when the CSV
file exists and holds a data row beyond the header, the next index is the
last row's embedded index plus one; otherwise the loop index `i` is kept.
`none` models the exception escaping from the parse of a malformed last
row. -/
def next_index (i : ℕ) (file : Option (List (List String))) : Option ℕ :=
  match file with
  | none => some i
  | some rows =>
      if rows.length > 1 then
        match rows.getLast? with
        | none => some i
        | some last_row =>
            match last_row.head? with
            | none => none
            | some cell =>
                match parse_image_index cell with
                | none => none
                | some last_image_num => some (last_image_num + 1)
      else some i

/-- `log_to_csv(violation, distance, i, config)`: the CSV file's rows are the
state; the result is the file's new rows plus the image name used, or `none`
when the index parse raises.  A missing or empty file receives the header
row first (the `file.tell() == 0` test). -/
def log_to_csv (violation : ℕ) (distance : String) (i : ℕ)
    (file : Option (List (List String))) : Option (List (List String) × String) :=
  match next_index i file with
  | none => none
  | some j =>
      let image_name := "image_" ++ pad6 j ++ ".jpg"
      let rows0 : List (List String) := match file with | some rows => rows | none => []
      let rows1 := if rows0.isEmpty then [csv_header] else rows0
      some (rows1 ++ [[image_name, toString violation, distance]], image_name)

/-- Claim C8: with an existing log whose last data row embeds index 41, the
next logged image is named `image_000042.jpg` — the last row's index plus
one — independently of the loop index argument `i`, and the row is appended
after the existing rows. -/
theorem C8_log_continues_from_last_row (violation : ℕ) (distance : String) (i : ℕ)
    (rows : List (List String)) (rest : List String)
    (hlen : 1 < rows.length)
    (hlast : rows.getLast? = some ("image_000041.jpg" :: rest)) :
    log_to_csv violation distance i (some rows) =
      some (rows ++ [["image_000042.jpg", toString violation, distance]],
        "image_000042.jpg") := by
  have hparse : parse_image_index "image_000041.jpg" = some 41 := by decide
  have hnext : next_index i (some rows) = some 42 := by
    unfold next_index
    dsimp only
    rw [if_pos hlen, hlast]
    dsimp only [List.head?_cons]
    rw [hparse]
  have hname : "image_" ++ pad6 42 ++ ".jpg" = "image_000042.jpg" := by decide
  have hne : rows.isEmpty = false := by
    cases rows with
    | nil => simp at hlen
    | cons a t => rfl
  unfold log_to_csv
  rw [hnext]
  dsimp only
  rw [hname]
  simp [hne]

/-- An existing log: the header plus one data row for image 41. -/
def demoRows : List (List String) :=
  [["ImageName", "Violation", "Distance"], ["image_000041.jpg", "0", "5.0"]]

/-- Claim C8, witness: resuming on the demo log writes `image_000042.jpg`
even though the loop index argument is 7. -/
theorem C8_log_continues_from_last_row_witness :
    (1 : ℕ) < demoRows.length ∧
    log_to_csv 0 "5.0" 7 (some demoRows) =
      some (demoRows ++ [["image_000042.jpg", toString 0, "5.0"]], "image_000042.jpg") :=
  ⟨by decide,
   C8_log_continues_from_last_row 0 "5.0" 7 demoRows ["0", "5.0"] (by decide) (by decide)⟩

/-- The continued index is determined by the file alone once a data row
exists. -/
lemma next_index_indep {rows : List (List String)} (h : 1 < rows.length) (i1 i2 : ℕ) :
    next_index i1 (some rows) = next_index i2 (some rows) := by
  have hne : rows ≠ [] := by
    intro hnil
    rw [hnil] at h
    simp at h
  obtain ⟨last, hlastEq⟩ := Option.isSome_iff_exists.mp (List.getLast?_isSome.mpr hne)
  unfold next_index
  dsimp only
  rw [if_pos h, if_pos h, hlastEq]

/-- Claim C10: whenever the CSV file exists with at least one data row beyond
the header, the result of `log_to_csv` — image name and logged row alike —
does not depend on the index argument `i`. -/
theorem C10_log_independent_of_index (violation : ℕ) (distance : String) (i1 i2 : ℕ)
    (rows : List (List String)) (h : 1 < rows.length) :
    log_to_csv violation distance i1 (some rows) =
      log_to_csv violation distance i2 (some rows) := by
  unfold log_to_csv
  rw [next_index_indep h i1 i2]

/-- Claim C10, witness: loop indices 0 and 9 write the identical record on
the demo log. -/
theorem C10_log_independent_of_index_witness :
    log_to_csv 1 "0.5" 0 (some demoRows) = log_to_csv 1 "0.5" 9 (some demoRows) :=
  C10_log_independent_of_index 1 "0.5" 0 9 demoRows (by decide)

end ImgGen
